import Mathlib

/-!
Verification of the file-reorg daemon core.

Shallow embedding of `src/file-reorg-daemon.py` (class `FileSyncManager`).

Modelling conventions:
* The filesystem is a flat association list from absolute path strings to
  file contents (a `Nat` content id).  Directories are not modelled:
  `os.makedirs(..., exist_ok=True)` is a no-op in the model.
* `shutil.move` is modelled by `shutil_move`.  It raises (`PyError.fileNotFound`)
  when the source path does not exist; an extra boolean `inj` injects an
  environment failure (`PyError.osError`, e.g. permissions or contention) on a
  call whose source exists, so that transient mover failures can be simulated.
* Wall-clock time is external: per-attempt elapsed times and the current time
  are oracle parameters.  Instants and durations are modelled as integers
  (seconds); the claims only need their ordered arithmetic.  The derived
  metrics of `log_metrics`, and the free/total disk ratio, are exact
  rationals (the Python floats).
* Log calls are recorded as events.  Only the severities that the claims talk
  about are recorded inside the pipeline (`logging.info` of `move_file`
  line 100 is not recorded; the `logging.info` of line 81 is); `time.sleep`
  calls are recorded as `Event.sleep` with their argument.
* An uncaught Python exception is modelled by `StepResult.exn = some e`:
  state mutations made before the raise persist (Python state is mutable),
  and an exception propagating out of `run_tick` means the `while True` loop
  in `run` (and hence the process) terminates.
* The thread pool of `process_files` is modelled sequentially: each submitted
  path runs `move_file_with_retry` to its terminal outcome, all submitted
  tasks run (the `with ThreadPoolExecutor` block waits for every future
  before the first exception propagates out of `future.result()`), and the
  first exception in submission order is the one that propagates.
-/

namespace FileReorg

/-- A filesystem: existing regular files, as (absolute path, content id). -/
abbrev Fs := List (String × Nat)

/-- Python exceptions that the embedded code can raise. -/
inductive PyError where
  /-- Raised by `shutil.move` when the source path no longer exists. -/
  | fileNotFound
  /-- an injected environment failure of `shutil.move` (permissions, contention). -/
  | osError
  /-- Raised because `self.mark_file_as_processed` does not exist on `FileSyncManager`
      (the defined method is `mark_as_processed`). -/
  | attributeError
deriving DecidableEq, Repr

/-- Observable events of one step of the daemon, in order of occurrence. -/
inductive Event where
  /-- one invocation of the Mover, i.e. of `self.move_file` (line 77). -/
  | moverCall
  /-- Call of `time.sleep(secs)` (line 87; backoff delay). -/
  | sleep (secs : Nat)
  /-- Call of `logging.info` (line 81). -/
  | logInfo
  /-- Call of `logging.warning` (lines 43, 86, 135). -/
  | logWarning
  /-- Call of `logging.error` (line 108). -/
  | logError
  /-- the metrics line of `log_metrics` (line 127), with the derived values. -/
  | logMetrics (avgTimePerFile errorRate thru : ℚ)
deriving DecidableEq, Repr

/-- The mutable state of a `FileSyncManager` instance, plus the filesystem. -/
structure DaemonState where
  processed_files : List String
  success_count : Nat
  failure_count : Nat
  total_processing_time : Int
  start_time : Int
  fs : Fs
deriving DecidableEq, Repr

/-- The immutable configuration (constructor arguments, line 20). -/
structure Config where
  source : String
  destination : String
  quarantine_folder : String
  max_retries : Nat
deriving DecidableEq, Repr

/-- Result of running a piece of the daemon: the state after it, the events
it emitted, and `some e` when a Python exception propagates out of it. -/
structure StepResult where
  state : DaemonState
  events : List Event
  exn : Option PyError
deriving DecidableEq, Repr

/-- Model of `os.path.join a b` for an absolute directory `a` and a relative name `b`. -/
def pjoin (a b : String) : String := String.mk (a.data ++ '/' :: b.data)

/-- Model of `os.path.basename`: the part of the path after the last slash. -/
def basename (s : String) : String :=
  String.mk ((s.data.reverse.takeWhile (fun c => !(c == '/'))).reverse)

/-- Lookup of a path in the filesystem. -/
def fsLookup (fs : Fs) (p : String) : Option Nat :=
  match fs with
  | [] => none
  | (q, c) :: rest => if q = p then some c else fsLookup rest p

/-- Remove a path from the filesystem. -/
def fsRemove (fs : Fs) (p : String) : Fs := fs.filter (fun e => !(e.1 == p))

/-- Create a path with the given content. -/
def fsInsert (fs : Fs) (p : String) (c : Nat) : Fs := fs ++ [(p, c)]

/-- Model of `shutil.move src dst`: raises `fileNotFound` when `src` does not exist,
raises `osError` when the environment injects a failure (`inj = true`),
otherwise relocates the content of `src` to `dst`. -/
def shutil_move (inj : Bool) (src dst : String) (fs : Fs) : Except PyError Fs :=
  match fsLookup fs src with
  | none => Except.error PyError.fileNotFound
  | some c =>
      if inj then Except.error PyError.osError
      else Except.ok (fsInsert (fsRemove fs src) dst c)

/-- Matching of `RE_FILENAME_WITH_DATE` against a name (line 10): the name must start with
four digits, a hyphen, two digits, a hyphen, two digits; the three capture
groups are returned. -/
def dateMatch (cs : List Char) : Option (List Char × List Char × List Char) :=
  match cs with
  | y1 :: y2 :: y3 :: y4 :: s1 :: m1 :: m2 :: s2 :: d1 :: d2 :: _rest =>
      if y1.isDigit && y2.isDigit && y3.isDigit && y4.isDigit
          && (s1 == '-') && m1.isDigit && m2.isDigit
          && (s2 == '-') && d1.isDigit && d2.isDigit then
        some ([y1, y2, y3, y4], [m1, m2], [d1, d2])
      else
        none
  | _ => none

/-- Embedding of `move_file` (lines 92-100): when the basename starts with `YYYY-MM-DD`,
create `destination/YEAR/MONTH/DAY` and move the file there keeping its
basename; when the basename does not match, the body of the `if` is skipped
and the function returns without doing anything (there is no fallback). -/
def move_file (inj : Bool) (dest : String) (src : String) (fs : Fs) :
    Except PyError Fs :=
  match dateMatch (basename src).data with
  | some (y, m, d) =>
      shutil_move inj src
        (pjoin (pjoin (pjoin (pjoin dest (String.mk y)) (String.mk m)) (String.mk d))
          (basename src)) fs
  | none => Except.ok fs

/-- Embedding of `is_file_processed` (lines 63-65). -/
def is_file_processed (s : DaemonState) (src : String) : Bool :=
  decide (src ∈ s.processed_files)

/-- Embedding of `mark_as_processed` (lines 67-69).  Note: the success path of
`move_file_with_retry` (line 82) calls `self.mark_file_as_processed`, a
method that does not exist, so this method is never invoked by the program;
the call raises `AttributeError` instead. -/
def mark_as_processed (s : DaemonState) (src : String) : DaemonState :=
  { s with processed_files := src :: s.processed_files }

/-- Embedding of `quarantine_file` (lines 102-108): move the file into the quarantine
folder under its basename; on success increment `failure_count` and log at
error severity.  When the `shutil.move` raises, the exception propagates
(there is no handler), `failure_count` is not incremented and nothing is
logged. -/
def quarantine_file (cfg : Config) (qinj : Bool) (src : String)
    (s : DaemonState) : StepResult :=
  match shutil_move qinj src (pjoin cfg.quarantine_folder (basename src)) s.fs with
  | Except.ok fs' =>
      ⟨{ s with fs := fs', failure_count := s.failure_count + 1 },
        [Event.logError], none⟩
  | Except.error e => ⟨s, [], some e⟩

/-- The `while attempts < self.max_retries` loop of `move_file_with_retry`
(lines 73-90), with `fuel = max_retries - attempts` as the recursion measure.
`fail a` tells whether the environment makes the `shutil.move` of attempt `a`
raise; `el a` is the wall-clock time the move of attempt `a` takes.

The success branch of the `try` mirrors lines 76-83 faithfully: the move
happens, `success_count` and `total_processing_time` are updated and the
info line is logged, but then `self.mark_file_as_processed(src_path)` raises
`AttributeError` (the class defines `mark_as_processed`, not
`mark_file_as_processed`), which the `except Exception` clause catches like
a move failure: `attempts` is incremented, a warning is logged and the
worker sleeps `2 ** attempts` seconds.  The `return` of line 83 is
unreachable, so the loop always runs `max_retries` iterations and always
falls through to `quarantine_file` (line 90). -/
def retry_loop (cfg : Config) (fail : Nat → Bool) (qinj : Bool) (el : Nat → Int)
    (src : String) : Nat → Nat → DaemonState → StepResult
  | _a, 0, s => quarantine_file cfg qinj src s
  | a, fuel + 1, s =>
      match move_file (fail a) cfg.destination src s.fs with
      | Except.ok fs' =>
          let s' : DaemonState :=
            { s with fs := fs', success_count := s.success_count + 1,
                     total_processing_time := s.total_processing_time + el a }
          let r := retry_loop cfg fail qinj el src (a + 1) fuel s'
          ⟨r.state,
            Event.moverCall :: Event.logInfo :: Event.logWarning
              :: Event.sleep (2 ^ (a + 1)) :: r.events, r.exn⟩
      | Except.error _ =>
          let r := retry_loop cfg fail qinj el src (a + 1) fuel s
          ⟨r.state,
            Event.moverCall :: Event.logWarning
              :: Event.sleep (2 ^ (a + 1)) :: r.events, r.exn⟩

/-- Embedding of `move_file_with_retry` (lines 71-90): run the retry loop starting from
`attempts = 0`. -/
def move_file_with_retry (cfg : Config) (fail : Nat → Bool) (qinj : Bool)
    (el : Nat → Int) (src : String) (s : DaemonState) : StepResult :=
  retry_loop cfg fail qinj el src 0 cfg.max_retries s

/-- Embedding of `check_disk_space` (lines 110-113): free/total of the destination
filesystem must exceed 0.1. -/
def check_disk_space (free total : Nat) : Bool :=
  decide ((free : ℚ) / (total : ℚ) > 1 / 10)

/-- The constant `ERROR_THRESHOLD` (line 11). -/
def ERROR_THRESHOLD : ℚ := 5

/-- Average processing time per file as computed on line 122
(0 when `success_count` is falsy, i.e. zero). -/
def avg_time_per_file (s : DaemonState) : ℚ :=
  if s.success_count ≠ 0 then (s.total_processing_time : ℚ) / (s.success_count : ℚ) else 0

/-- Error rate as computed on line 123 (0 when no file was processed). -/
def error_rate (s : DaemonState) : ℚ :=
  if s.success_count + s.failure_count ≠ 0 then
    ((s.failure_count : ℚ) / ((s.success_count + s.failure_count : Nat) : ℚ)) * 100
  else 0

/-- Throughput as computed on line 124 (0 when the elapsed time is not
positive). -/
def throughput (now : Int) (s : DaemonState) : ℚ :=
  if now - s.start_time > 0 then (s.success_count : ℚ) / ((now - s.start_time : Int) : ℚ) else 0

/-- Embedding of `log_metrics` (lines 115-142): compute and log the derived metrics, warn
when the error rate exceeds the threshold, and reset the window (counters
zeroed, `start_time` set to `now`) exactly when more than 3600 seconds have
elapsed since `start_time`. -/
def log_metrics (now : Int) (s : DaemonState) : DaemonState × List Event :=
  let elapsed := now - s.start_time
  let evs := [Event.logMetrics (avg_time_per_file s) (error_rate s) (throughput now s)]
  let evs := if error_rate s > ERROR_THRESHOLD then evs ++ [Event.logWarning] else evs
  if elapsed > 3600 then
    ({ s with start_time := now, success_count := 0, failure_count := 0,
              total_processing_time := 0 }, evs)
  else (s, evs)

/-- The environment of one polling tick: per-path failure oracles for the
mover and the quarantine move, per-attempt elapsed times, the directory
listing of the source, the disk usage of the destination, and the current
time. -/
structure Env where
  fail : String → Nat → Bool
  qinj : String → Bool
  el : String → Nat → Int
  listing : List String
  free : Nat
  total : Nat
  now : Int

/-- The dispatch filter of `process_files` (lines 50-57): an entry of the
source listing is submitted to the pool iff joining it to the source
directory yields an existing regular file that is not in `processed_files`
and whose name matches `RE_FILENAME_WITH_DATE`. -/
def dispatch_list (cfg : Config) (fs : Fs) (processed : List String)
    (listing : List String) : List String :=
  (listing.filter (fun name =>
      (fsLookup fs (pjoin cfg.source name)).isSome
        && !(decide (pjoin cfg.source name ∈ processed))
        && (dateMatch name.data).isSome)).map
    (fun name => pjoin cfg.source name)

/-- Embedding of `process_files` (lines 46-61): every dispatched path runs
`move_file_with_retry` to its terminal outcome; the first exception raised
by any task propagates out of the function (via `future.result()`), after
all tasks have run. -/
def process_files (cfg : Config) (env : Env) (s : DaemonState) : StepResult :=
  (dispatch_list cfg s.fs s.processed_files env.listing).foldl
    (fun acc src =>
      let r := move_file_with_retry cfg (env.fail src) (env.qinj src)
        (env.el src) src acc.state
      ⟨r.state, acc.events ++ r.events,
        match acc.exn with
        | some e => some e
        | none => r.exn⟩)
    ⟨s, [], none⟩

/-- One iteration of the `while True` loop of `run` (lines 38-44): when the
disk-space guard passes, process the files and then (only when no exception
propagated out of `process_files`) log the metrics; when the guard fails,
log a warning and do nothing else.  `exn = some e` means the exception
propagates out of `run`, i.e. the process terminates; the trailing
`time.sleep(poll_interval)` is not modelled. -/
def run_tick (cfg : Config) (env : Env) (s : DaemonState) : StepResult :=
  if check_disk_space env.free env.total then
    let r := process_files cfg env s
    match r.exn with
    | some e => ⟨r.state, r.events, some e⟩
    | none =>
        let p := log_metrics env.now r.state
        ⟨p.1, r.events ++ p.2, none⟩
  else
    ⟨s, [Event.logWarning], none⟩

/-- Number of Mover invocations in a trace. -/
def countMover : List Event → Nat
  | [] => 0
  | Event.moverCall :: tr => countMover tr + 1
  | _ :: tr => countMover tr

/-- The backoff sleeps of a trace, in order. -/
def sleepsOf : List Event → List Nat
  | [] => []
  | Event.sleep n :: tr => n :: sleepsOf tr
  | _ :: tr => sleepsOf tr

/-- The events of a retry loop all of whose attempts fail, starting at
attempt number `a` with `f` attempts left: per attempt one Mover call, one
warning and one backoff sleep of `2 ^ (a + 1)` seconds. -/
def failTrace : Nat → Nat → List Event
  | _, 0 => []
  | a, f + 1 =>
      Event.moverCall :: Event.logWarning :: Event.sleep (2 ^ (a + 1))
        :: failTrace (a + 1) f

lemma quarantine_countMover (cfg : Config) (qinj : Bool) (src : String)
    (s : DaemonState) : countMover (quarantine_file cfg qinj src s).events = 0 := by
  unfold quarantine_file
  cases hq : shutil_move qinj src (pjoin cfg.quarantine_folder (basename src)) s.fs <;> rfl

lemma quarantine_sleepsOf (cfg : Config) (qinj : Bool) (src : String)
    (s : DaemonState) : sleepsOf (quarantine_file cfg qinj src s).events = [] := by
  unfold quarantine_file
  cases hq : shutil_move qinj src (pjoin cfg.quarantine_folder (basename src)) s.fs <;> rfl

lemma loop_countMover (cfg : Config) (fail : Nat → Bool) (qinj : Bool)
    (el : Nat → Int) (src : String) :
    ∀ f a s, countMover (retry_loop cfg fail qinj el src a f s).events = f := by
  intro f
  induction f with
  | zero =>
      intro a s
      simpa [retry_loop] using quarantine_countMover cfg qinj src s
  | succ f ih =>
      intro a s
      rw [retry_loop]
      cases hm : move_file (fail a) cfg.destination src s.fs with
      | ok fs' => simp [countMover, ih]
      | error e => simp [countMover, ih]

lemma loop_sleepsOf (cfg : Config) (fail : Nat → Bool) (qinj : Bool)
    (el : Nat → Int) (src : String) :
    ∀ f a s, sleepsOf (retry_loop cfg fail qinj el src a f s).events
      = (List.range f).map (fun k => 2 ^ (a + k + 1)) := by
  intro f
  induction f with
  | zero =>
      intro a s
      simpa [retry_loop] using quarantine_sleepsOf cfg qinj src s
  | succ f ih =>
      intro a s
      have hr : (List.range (f + 1)).map (fun k => 2 ^ (a + k + 1))
          = 2 ^ (a + 1) :: (List.range f).map (fun k => 2 ^ (a + 1 + k + 1)) := by
        rw [List.range_succ_eq_map, List.map_cons, List.map_map]
        have hfun : ((fun k => 2 ^ (a + k + 1)) ∘ Nat.succ)
            = fun k => 2 ^ (a + 1 + k + 1) := by
          funext k
          simp only [Function.comp]
          congr 1
          omega
        rw [hfun]
      rw [retry_loop, hr]
      cases hm : move_file (fail a) cfg.destination src s.fs with
      | ok fs' => simp [sleepsOf, ih]
      | error e => simp [sleepsOf, ih]

lemma move_file_inj_fails (dest src : String) (fs : Fs)
    (y m d : List Char) (hm : dateMatch (basename src).data = some (y, m, d)) :
    ∃ e, move_file true dest src fs = Except.error e := by
  unfold move_file
  rw [hm]
  unfold shutil_move
  cases hl : fsLookup fs src with
  | none => exact ⟨PyError.fileNotFound, rfl⟩
  | some c => exact ⟨PyError.osError, rfl⟩

lemma loop_alwaysFail (cfg : Config) (fail : Nat → Bool) (qinj : Bool)
    (el : Nat → Int) (src : String) (y m d : List Char)
    (hm : dateMatch (basename src).data = some (y, m, d))
    (hf : ∀ k, fail k = true) :
    ∀ f a s, retry_loop cfg fail qinj el src a f s =
      ⟨(quarantine_file cfg qinj src s).state,
        failTrace a f ++ (quarantine_file cfg qinj src s).events,
        (quarantine_file cfg qinj src s).exn⟩ := by
  intro f
  induction f with
  | zero => intro a s; simp [retry_loop, failTrace]
  | succ f ih =>
      intro a s
      obtain ⟨e, he⟩ : ∃ e, move_file (fail a) cfg.destination src s.fs
          = Except.error e := by
        rw [hf a]; exact move_file_inj_fails cfg.destination src s.fs y m d hm
      rw [retry_loop, he]
      simp [ih, failTrace]

lemma logError_not_mem_failTrace : ∀ f a, Event.logError ∉ failTrace a f := by
  intro f
  induction f with
  | zero => intro a; simp [failTrace]
  | succ f ih => intro a; simp [failTrace]; exact ih (a + 1)

lemma quarantine_ok (cfg : Config) (src : String) (s : DaemonState) (c : Nat)
    (h : fsLookup s.fs src = some c) :
    quarantine_file cfg false src s =
      ⟨{ s with
          fs := fsInsert (fsRemove s.fs src) (pjoin cfg.quarantine_folder (basename src)) c,
          failure_count := s.failure_count + 1 }, [Event.logError], none⟩ := by
  unfold quarantine_file shutil_move
  rw [h]
  rfl

lemma quarantine_inj_fails (cfg : Config) (src : String) (s : DaemonState)
    (c : Nat) (h : fsLookup s.fs src = some c) :
    quarantine_file cfg true src s = ⟨s, [], some PyError.osError⟩ := by
  unfold quarantine_file shutil_move
  rw [h]
  rfl

lemma pjoin_right_inj (a : String) : Function.Injective (fun b => pjoin a b) := by
  intro b c h
  simp only [pjoin] at h
  injection h with h1
  have h2 := List.append_cancel_left h1
  injection h2 with h3 h4
  cases b
  cases c
  simp only at h4
  rw [h4]

/-- C1: the claim fails on the code.  On the failing input — source file
`in/2024-01-05_report.csv`, one simulated failure on attempt 0 followed by a
successful move on attempt 1 — the move does land the file at the classified
destination, `success_count` rises by 1 and `failure_count` by 0, but the
success path then calls `self.mark_file_as_processed` (line 82), a method
that does not exist (the defined method is `mark_as_processed`, line 67), so
an `AttributeError` is raised inside the `try`, is caught like a move
failure, the already-moved file is retried until the retries are exhausted,
and `quarantine_file` then raises `FileNotFoundError` (the source is gone),
which propagates uncaught.  Hence the path is never marked processed and the
call never returns normally, contradicting the claim.  This theorem
evaluates the embedding on that input: note `processed_files` stays empty
and `exn = some fileNotFound`. -/
theorem c1_success_is_never_marked_processed :
    move_file_with_retry ⟨"in", "out", "q", 3⟩ (fun k => k == 0) false (fun _ => 1)
        "in/2024-01-05_report.csv" ⟨[], 0, 0, 0, 0, [("in/2024-01-05_report.csv", 7)]⟩
      = ⟨⟨[], 1, 0, 1, 0, [("out/2024/01/05/2024-01-05_report.csv", 7)]⟩,
          [Event.moverCall, Event.logWarning, Event.sleep 2,
           Event.moverCall, Event.logInfo, Event.logWarning, Event.sleep 4,
           Event.moverCall, Event.logWarning, Event.sleep 8],
          some PyError.fileNotFound⟩ := by
  decide

/-- C3: for every source path whose basename begins with `YYYY-MM-DD`
(four digits, hyphen, two digits, hyphen, two digits) and which exists, a
successful move relocates it to
`destination_root/YEAR/MONTH/DAY/basename`, where the three segments are
exactly the digits extracted from the name. -/
theorem c3_dated_name_destination (dest src : String) (fs : Fs) (c : Nat)
    (y1 y2 y3 y4 m1 m2 d1 d2 : Char) (rest : List Char)
    (hb : (basename src).data
      = y1 :: y2 :: y3 :: y4 :: '-' :: m1 :: m2 :: '-' :: d1 :: d2 :: rest)
    (hy1 : y1.isDigit = true) (hy2 : y2.isDigit = true)
    (hy3 : y3.isDigit = true) (hy4 : y4.isDigit = true)
    (hm1 : m1.isDigit = true) (hm2 : m2.isDigit = true)
    (hd1 : d1.isDigit = true) (hd2 : d2.isDigit = true)
    (hsrc : fsLookup fs src = some c) :
    move_file false dest src fs =
      Except.ok (fsInsert (fsRemove fs src)
        (pjoin (pjoin (pjoin (pjoin dest (String.mk [y1, y2, y3, y4]))
          (String.mk [m1, m2])) (String.mk [d1, d2])) (basename src)) c) := by
  unfold move_file
  rw [hb]
  simp only [dateMatch, hy1, hy2, hy3, hy4, hm1, hm2, hd1, hd2,
    beq_self_eq_true, Bool.and_self, Bool.and_true, Bool.true_and, if_true]
  unfold shutil_move
  rw [hsrc]
  rfl

/-- C3 witness: the spec scenario.  `2024-01-05_report.csv` under source,
destination root `/out`: the file ends at
`/out/2024/01/05/2024-01-05_report.csv`. -/
theorem c3_dated_name_destination_scenario :
    move_file false "/out" "/in/2024-01-05_report.csv"
        [("/in/2024-01-05_report.csv", 7)]
      = Except.ok [("/out/2024/01/05/2024-01-05_report.csv", 7)] := by
  rw [c3_dated_name_destination "/out" "/in/2024-01-05_report.csv"
    [("/in/2024-01-05_report.csv", 7)] 7 '2' '0' '2' '4' '0' '1' '0' '5'
    "_report.csv".data (by decide) (by decide) (by decide) (by decide) (by decide)
    (by decide) (by decide) (by decide) (by decide) (by decide)]
  rfl

/-- C4 counterexample: the claim is false on the code.  With `notes.txt`
present in the source directory and not yet processed, `process_files`
dispatches nothing (the filter on line 54 only submits names matching
`RE_FILENAME_WITH_DATE`), and `move_file` applied to it performs no move at
all (the body of lines 96-100 is guarded by the same pattern and there is no
fallback branch).  The code never reads the file's modification time — no
such input exists in the program — so no mtime-derived destination is ever
produced and the file is not processed through the pipeline. -/
theorem c4_nondate_file_untouched_concrete :
    dispatch_list ⟨"in", "out", "q", 3⟩ [("in/notes.txt", 3)] [] ["notes.txt"] = []
      ∧ move_file false "out" "in/notes.txt" [("in/notes.txt", 3)]
        = Except.ok [("in/notes.txt", 3)] :=
  ⟨by decide, by rfl⟩

/-- C4 amended: for every candidate file whose basename does not begin with
`YYYY-MM-DD`, the file is skipped, not processed: it is never submitted to
the worker pool (its path is not in the dispatch list of any cycle), and
`move_file` on such a path performs no move and produces no destination
(there is no modification-time fallback). -/
theorem c4_nondate_file_skipped (cfg : Config) (fs : Fs)
    (processed listing : List String) (name : String)
    (hm : dateMatch name.data = none) :
    pjoin cfg.source name ∉ dispatch_list cfg fs processed listing
      ∧ ∀ inj dest src fs', basename src = name →
          move_file inj dest src fs' = Except.ok fs' := by
  constructor
  · intro hp
    simp only [dispatch_list, List.mem_map] at hp
    obtain ⟨n, hn, heq⟩ := hp
    have hnn : n = name := pjoin_right_inj cfg.source heq
    rw [List.mem_filter] at hn
    have h2 := hn.2
    rw [hnn] at h2
    simp only [Bool.and_eq_true] at h2
    have h3 := h2.2
    rw [hm] at h3
    simp at h3
  · intro inj dest src fs' hb
    unfold move_file
    rw [hb, hm]

/-- C4 witness for the amended claim, at `notes.txt`. -/
theorem c4_nondate_file_skipped_witness :
    pjoin "in" "notes.txt"
        ∉ dispatch_list ⟨"in", "out", "q", 3⟩ [("in/notes.txt", 3)] [] ["notes.txt"]
      ∧ move_file false "out" "in/notes.txt" [("in/notes.txt", 3)]
        = Except.ok [("in/notes.txt", 3)] := by
  have h := c4_nondate_file_skipped ⟨"in", "out", "q", 3⟩ [("in/notes.txt", 3)]
    [] ["notes.txt"] "notes.txt" (by decide)
  exact ⟨h.1, h.2 false "out" "in/notes.txt" [("in/notes.txt", 3)] (by decide)⟩

/-- C5: for every source path and failure pattern, `move_file_with_retry`
invokes the Mover at most `max_retries` times, and the backoff sleeps are
`2 ^ attempt` seconds with `attempt` starting at 1 (the code sleeps after
every failed attempt, the last included); in the spec scenario — a mover
that always fails, `max_retries = 3` — there are exactly 3 attempts with
delays of 2 s, 4 s and 8 s, after which the file sits in the quarantine
directory with its content unchanged. -/
theorem c5_retry_bound_and_backoff (cfg : Config) (fail : Nat → Bool)
    (qinj : Bool) (el : Nat → Int) (src : String) (s : DaemonState) :
    countMover (move_file_with_retry cfg fail qinj el src s).events ≤ cfg.max_retries
      ∧ sleepsOf (move_file_with_retry cfg fail qinj el src s).events
          = (List.range cfg.max_retries).map (fun k => 2 ^ (k + 1))
      ∧ move_file_with_retry ⟨"in", "out", "q", 3⟩ (fun _ => true) false (fun _ => 1)
          "in/2024-03-04_bad.bin" ⟨[], 0, 0, 0, 0, [("in/2024-03-04_bad.bin", 9)]⟩
        = ⟨⟨[], 0, 1, 0, 0, [("q/2024-03-04_bad.bin", 9)]⟩,
            [Event.moverCall, Event.logWarning, Event.sleep 2,
             Event.moverCall, Event.logWarning, Event.sleep 4,
             Event.moverCall, Event.logWarning, Event.sleep 8, Event.logError],
            none⟩ := by
  refine ⟨?_, ?_, by decide⟩
  · unfold move_file_with_retry
    exact le_of_eq (loop_countMover cfg fail qinj el src cfg.max_retries 0 s)
  · unfold move_file_with_retry
    rw [loop_sleepsOf cfg fail qinj el src cfg.max_retries 0 s]
    simp

/-- C6 counterexample: the claim is false on the code in one respect.  After
`max_retries` consecutive failed attempts the file does end up in the
quarantine directory, `failure_count` rises by exactly 1 and `success_count`
is unchanged, but `quarantine_file` (lines 102-108) never calls
`mark_as_processed`: the resulting `processed_files` is still empty, so the
path is NOT marked processed, contradicting the claim's last conjunct. -/
theorem c6_quarantined_file_not_marked_processed :
    move_file_with_retry ⟨"in", "out", "q2", 3⟩ (fun _ => true) false (fun _ => 1)
        "in/2024-06-07_data.csv" ⟨[], 0, 0, 0, 0, [("in/2024-06-07_data.csv", 5)]⟩
      = ⟨⟨[], 0, 1, 0, 0, [("q2/2024-06-07_data.csv", 5)]⟩,
          [Event.moverCall, Event.logWarning, Event.sleep 2,
           Event.moverCall, Event.logWarning, Event.sleep 4,
           Event.moverCall, Event.logWarning, Event.sleep 8, Event.logError],
          none⟩ := by
  decide

/-- C6 amended: for every source path (with a date-matching basename, the
only kind that is ever dispatched) that fails `max_retries` consecutive
attempts, the file ends up in the quarantine directory under its basename,
`failure_count` increments by exactly 1, `success_count` is unchanged, no
exception escapes — but the path is NOT marked processed (`processed_files`
is unchanged; what makes quarantine terminal within the run is only that the
file is no longer in the source directory). -/
theorem c6_quarantine_terminal (cfg : Config) (fail : Nat → Bool)
    (el : Nat → Int) (src : String) (s : DaemonState) (c : Nat)
    (y m d : List Char)
    (hm : dateMatch (basename src).data = some (y, m, d))
    (hf : ∀ k, fail k = true)
    (hsrc : fsLookup s.fs src = some c) :
    move_file_with_retry cfg fail false el src s
        = ⟨{ s with
              fs := fsInsert (fsRemove s.fs src)
                (pjoin cfg.quarantine_folder (basename src)) c,
              failure_count := s.failure_count + 1 },
            failTrace 0 cfg.max_retries ++ [Event.logError], none⟩
      ∧ (move_file_with_retry cfg fail false el src s).state.success_count
          = s.success_count
      ∧ (move_file_with_retry cfg fail false el src s).state.processed_files
          = s.processed_files := by
  have h : move_file_with_retry cfg fail false el src s
      = ⟨{ s with
            fs := fsInsert (fsRemove s.fs src)
              (pjoin cfg.quarantine_folder (basename src)) c,
            failure_count := s.failure_count + 1 },
          failTrace 0 cfg.max_retries ++ [Event.logError], none⟩ := by
    unfold move_file_with_retry
    rw [loop_alwaysFail cfg fail false el src y m d hm hf cfg.max_retries 0 s,
      quarantine_ok cfg src s c hsrc]
  exact ⟨h, by rw [h], by rw [h]⟩

/-- C6 witness for the amended claim: a concrete always-failing file ends in
quarantine with `failure_count = 1`, `success_count = 0` and an unchanged
(empty) processed set. -/
theorem c6_quarantine_terminal_witness :
    move_file_with_retry ⟨"in", "out", "qdir", 2⟩ (fun _ => true) false (fun _ => 1)
        "in/2024-06-07_data.csv" ⟨[], 0, 0, 0, 0, [("in/2024-06-07_data.csv", 5)]⟩
      = ⟨⟨[], 0, 1, 0, 0, [("qdir/2024-06-07_data.csv", 5)]⟩,
          failTrace 0 2 ++ [Event.logError], none⟩ := by
  have h := c6_quarantine_terminal ⟨"in", "out", "qdir", 2⟩ (fun _ => true)
    (fun _ => 1) "in/2024-06-07_data.csv"
    ⟨[], 0, 0, 0, 0, [("in/2024-06-07_data.csv", 5)]⟩ 5
    ['2', '0', '2', '4'] ['0', '6'] ['0', '7'] (by decide) (fun _ => rfl) (by decide)
  exact h.1

/-- C2 counterexample: the claim is false on the code.  On a polling tick in
which the only candidate file fails every move attempt and the quarantine
move itself also fails, the exception raised by `shutil.move` inside
`quarantine_file` (line 106) is caught nowhere: it propagates through
`move_file_with_retry` (line 90 is outside the `try`), through
`future.result()` (line 61) and out of `run` — `exn = some osError`, i.e.
the process terminates instead of continuing to the next cycle.  No
error-severity log is emitted for it (`logging.error` on line 108 is only
reached when the quarantine move succeeds).  The file does stay in the
source directory and the path is not marked processed. -/
theorem c2_quarantine_failure_terminates_run :
    run_tick ⟨"in", "out", "q", 3⟩
        ⟨fun _ _ => true, fun _ => true, fun _ _ => 1,
          ["2024-03-04_bad.bin"], 50, 100, 10⟩
        ⟨[], 0, 0, 0, 0, [("in/2024-03-04_bad.bin", 9)]⟩
      = ⟨⟨[], 0, 0, 0, 0, [("in/2024-03-04_bad.bin", 9)]⟩,
          [Event.moverCall, Event.logWarning, Event.sleep 2,
           Event.moverCall, Event.logWarning, Event.sleep 4,
           Event.moverCall, Event.logWarning, Event.sleep 8],
          some PyError.osError⟩ := by
  have hcd : check_disk_space 50 100 = true := by
    unfold check_disk_space
    rw [decide_eq_true_eq]
    norm_num
  unfold run_tick
  dsimp only
  rw [hcd]
  decide

/-- C2 amended: failures of individual move attempts are caught and retried
without terminating the process, but a failure of the quarantine move itself
is NOT caught and NOT logged: the exception propagates out of the retry
executor (and hence out of `process_files` and the `run` loop, terminating
the process); the file stays in the source directory, the metrics and the
processed set are untouched, and no error-severity log is emitted. -/
theorem c2_quarantine_failure_propagates (cfg : Config) (fail : Nat → Bool)
    (el : Nat → Int) (src : String) (s : DaemonState) (c : Nat)
    (y m d : List Char)
    (hm : dateMatch (basename src).data = some (y, m, d))
    (hf : ∀ k, fail k = true)
    (hsrc : fsLookup s.fs src = some c) :
    move_file_with_retry cfg fail true el src s
        = ⟨s, failTrace 0 cfg.max_retries, some PyError.osError⟩
      ∧ Event.logError ∉ (move_file_with_retry cfg fail true el src s).events := by
  have h : move_file_with_retry cfg fail true el src s
      = ⟨s, failTrace 0 cfg.max_retries, some PyError.osError⟩ := by
    unfold move_file_with_retry
    rw [loop_alwaysFail cfg fail true el src y m d hm hf cfg.max_retries 0 s,
      quarantine_inj_fails cfg src s c hsrc]
    simp
  refine ⟨h, ?_⟩
  rw [h]
  exact logError_not_mem_failTrace cfg.max_retries 0

/-- C2 witness for the amended claim at a concrete input. -/
theorem c2_quarantine_failure_propagates_witness :
    move_file_with_retry ⟨"in", "out", "qq", 2⟩ (fun _ => true) true (fun _ => 1)
        "in/2024-08-09_x.txt" ⟨[], 0, 0, 0, 0, [("in/2024-08-09_x.txt", 4)]⟩
      = ⟨⟨[], 0, 0, 0, 0, [("in/2024-08-09_x.txt", 4)]⟩, failTrace 0 2,
          some PyError.osError⟩
      ∧ Event.logError ∉ (move_file_with_retry ⟨"in", "out", "qq", 2⟩
          (fun _ => true) true (fun _ => 1) "in/2024-08-09_x.txt"
          ⟨[], 0, 0, 0, 0, [("in/2024-08-09_x.txt", 4)]⟩).events :=
  c2_quarantine_failure_propagates ⟨"in", "out", "qq", 2⟩ (fun _ => true)
    (fun _ => 1) "in/2024-08-09_x.txt"
    ⟨[], 0, 0, 0, 0, [("in/2024-08-09_x.txt", 4)]⟩ 4
    ['2', '0', '2', '4'] ['0', '8'] ['0', '9'] (by decide) (fun _ => rfl) (by decide)

/-- C7 counterexample: the claim is false on the code in one respect.  On a
low-disk tick (`free/total = 1/100 ≤ 0.1`) the cycle is skipped with a
warning, no Mover runs and the counters are untouched — but `log_metrics`
(line 41) is also skipped, so the periodic rollover check is NOT performed:
here 4000 s have elapsed since the window start (> 3600), so a performed
rollover check would have zeroed `success_count` (second conjunct), yet the
tick leaves it at 5 (first conjunct). -/
theorem c7_low_disk_skips_rollover :
    run_tick ⟨"in", "out", "q", 3⟩
        ⟨fun _ _ => false, fun _ => false, fun _ _ => 1, [], 1, 100, 4000⟩
        ⟨[], 5, 0, 10, 0, []⟩
      = ⟨⟨[], 5, 0, 10, 0, []⟩, [Event.logWarning], none⟩
      ∧ (log_metrics 4000 ⟨[], 5, 0, 10, 0, []⟩).1.success_count = 0 := by
  constructor
  · have hcd : check_disk_space 1 100 = false := by
      unfold check_disk_space
      rw [decide_eq_false_iff_not]
      norm_num
    unfold run_tick
    dsimp only
    rw [hcd]
    rfl
  · decide

/-- C7 amended: for every polling tick where free/total disk space at the
destination is ≤ 0.1, the whole cycle is skipped with a warning: zero Mover
invocations, the entire state — `success_count`, `failure_count`,
`total_processing_time`, and also the window start — unchanged, and
`log_metrics` (hence also the periodic rollover check it contains) is
skipped for that tick. -/
theorem c7_low_disk_guard_skips_cycle (cfg : Config) (env : Env)
    (s : DaemonState)
    (h : ((env.free : ℚ) / (env.total : ℚ)) ≤ 1 / 10) :
    run_tick cfg env s = ⟨s, [Event.logWarning], none⟩
      ∧ countMover (run_tick cfg env s).events = 0 := by
  have hcd : check_disk_space env.free env.total = false := by
    unfold check_disk_space
    rw [decide_eq_false_iff_not]
    exact not_lt.mpr h
  have hr : run_tick cfg env s = ⟨s, [Event.logWarning], none⟩ := by
    unfold run_tick
    rw [hcd]
    rfl
  exact ⟨hr, by rw [hr]; rfl⟩

/-- C7 witness for the amended claim: a tick at 1% free space changes
nothing and only warns. -/
theorem c7_low_disk_guard_skips_cycle_witness :
    run_tick ⟨"in", "out", "q", 3⟩
        ⟨fun _ _ => false, fun _ => false, fun _ _ => 1, ["2024-01-05_a.csv"], 1, 100, 50⟩
        ⟨[], 2, 1, 3, 0, [("in/2024-01-05_a.csv", 1)]⟩
      = ⟨⟨[], 2, 1, 3, 0, [("in/2024-01-05_a.csv", 1)]⟩, [Event.logWarning], none⟩ :=
  (c7_low_disk_guard_skips_cycle ⟨"in", "out", "q", 3⟩
    ⟨fun _ _ => false, fun _ => false, fun _ _ => 1, ["2024-01-05_a.csv"], 1, 100, 50⟩
    ⟨[], 2, 1, 3, 0, [("in/2024-01-05_a.csv", 1)]⟩ (by norm_num)).1

/-- C8: the metrics window is zeroed and the window start reset exactly when
the elapsed time since the window start exceeds 3600 seconds, and never
before: when `now - start_time > 3600`, `log_metrics` returns the state with
the three counters zeroed and `start_time := now`; when
`now - start_time ≤ 3600`, the state is returned unchanged by the reset
step. -/
theorem c8_metrics_rollover (now : Int) (s : DaemonState) :
    (now - s.start_time > 3600 →
      (log_metrics now s).1 = { s with
          start_time := now,
          success_count := 0,
          failure_count := 0,
          total_processing_time := 0 })
      ∧ (now - s.start_time ≤ 3600 → (log_metrics now s).1 = s) := by
  constructor
  · intro h
    unfold log_metrics
    rw [if_pos h]
  · intro h
    unfold log_metrics
    rw [if_neg (not_lt.mpr h)]

/-- C8 witness: a call at 4000 s elapsed resets, a call at 100 s elapsed
leaves the counters untouched. -/
theorem c8_metrics_rollover_witness :
    (log_metrics 4000 ⟨[], 5, 2, 10, 0, []⟩).1 = ⟨[], 0, 0, 0, 4000, []⟩
      ∧ (log_metrics 100 ⟨[], 5, 2, 10, 0, []⟩).1 = ⟨[], 5, 2, 10, 0, []⟩ :=
  ⟨(c8_metrics_rollover 4000 ⟨[], 5, 2, 10, 0, []⟩).1 (by norm_num),
    (c8_metrics_rollover 100 ⟨[], 5, 2, 10, 0, []⟩).2 (by norm_num)⟩

/-- C9: within one processing cycle each source path is dispatched at most
once — the dispatch list built from a directory listing with distinct names
(as `os.listdir` yields) contains no duplicates, and none of its paths is in
the processed set.  Cycles never overlap: `process_files` only returns after
every submitted future has reached its terminal outcome (the
`with ThreadPoolExecutor` block and the `as_completed` loop, lines 48-61),
and `run` (lines 38-44) is a sequential loop, which the sequential embedding
`run_tick` reflects; hence at most one active retry executor acts on any
given source path at any instant. -/
theorem c9_dispatch_unique (cfg : Config) (fs : Fs)
    (processed listing : List String) (h : listing.Nodup) :
    (dispatch_list cfg fs processed listing).Nodup
      ∧ ∀ p ∈ dispatch_list cfg fs processed listing, p ∉ processed := by
  constructor
  · exact (h.filter _).map (pjoin_right_inj cfg.source)
  · intro p hp
    simp only [dispatch_list, List.mem_map] at hp
    obtain ⟨n, hn, heq⟩ := hp
    rw [List.mem_filter] at hn
    have h2 := hn.2
    simp only [Bool.and_eq_true, Bool.not_eq_true', decide_eq_false_iff_not] at h2
    rw [← heq]
    exact h2.1.2

/-- C9 witness: a concrete cycle with two distinct candidate names
dispatches each path at most once. -/
theorem c9_dispatch_unique_witness :
    (dispatch_list ⟨"in", "out", "q", 3⟩
        [("in/2024-01-05_a.csv", 1), ("in/2024-01-06_b.csv", 2)] []
        ["2024-01-05_a.csv", "2024-01-06_b.csv"]).Nodup :=
  (c9_dispatch_unique ⟨"in", "out", "q", 3⟩
    [("in/2024-01-05_a.csv", 1), ("in/2024-01-06_b.csv", 2)] []
    ["2024-01-05_a.csv", "2024-01-06_b.csv"] (by decide)).1

/-- C10: the derived metrics of `log_metrics` are guarded against division
by zero exactly as lines 122-124 write them: the average time per file is 0
when `success_count` is 0, the error rate is 0 when no file reached a
terminal outcome, and the throughput is 0 when the elapsed time is not
positive — so the computation step of `log_metrics` always completes (in
the embedding all three are total functions). -/
theorem c10_derived_metrics_guarded (now : Int) (s : DaemonState) :
    (s.success_count = 0 → avg_time_per_file s = 0)
      ∧ (s.success_count + s.failure_count = 0 → error_rate s = 0)
      ∧ (now - s.start_time ≤ 0 → throughput now s = 0) := by
  refine ⟨fun h => ?_, fun h => ?_, fun h => ?_⟩
  · unfold avg_time_per_file
    rw [if_neg (by simp [h])]
  · unfold error_rate
    rw [if_neg (by simp [h])]
  · unfold throughput
    rw [if_neg (not_lt.mpr h)]

/-- C10 witness: the three guards at concrete states. -/
theorem c10_derived_metrics_guarded_witness :
    avg_time_per_file ⟨[], 0, 3, 10, 0, []⟩ = 0
      ∧ error_rate ⟨[], 0, 0, 0, 0, []⟩ = 0
      ∧ throughput 0 ⟨[], 4, 1, 10, 0, []⟩ = 0 :=
  ⟨(c10_derived_metrics_guarded 0 ⟨[], 0, 3, 10, 0, []⟩).1 rfl,
    (c10_derived_metrics_guarded 0 ⟨[], 0, 0, 0, 0, []⟩).2.1 rfl,
    (c10_derived_metrics_guarded 0 ⟨[], 4, 1, 10, 0, []⟩).2.2 (by norm_num)⟩

end FileReorg
